import Mathlib

/-!
Verification of the DocAI disease-prediction service (`src/main.py`).

The service exposes a symptom-to-disease classifier over HTTP.  We embed the
pure computational core shallowly:

* `preprocess_symptoms` — the binary symptom vectorizer (`main.py`, lines
  101–120);
* `softmax` — the semantics of `tf.nn.softmax`, the logits-to-probabilities
  transform used at lines 192/238, together with the max-subtracted
  formulation `stableSoftmax`;
* `top_3_indices` — `np.argsort(probabilities)[-3:][::-1]` (lines 195/240);
* `predict_disease` — the `/predict` handler (lines 167–217);
* `batch_item` / `predict_disease_batch` — the `/predict/batch` handler
  (lines 219–259);
* `lifespan_startup` — the startup half of the `lifespan` handler
  (lines 28–67), parametrized over an abstract file system.

The trained Keras model is opaque in the repository, so the classifier is a
parameter `List ℕ → List ℝ` mapping a feature vector to a vector of logits.
-/

namespace DocAI

/-- Remove leading and trailing whitespace from a character list: the
semantics of Python's `str.strip()`. -/
def stripChars (l : List Char) : List Char :=
  ((l.dropWhile Char.isWhitespace).reverse.dropWhile Char.isWhitespace).reverse

/-- The normalization applied to both input symptoms and schema columns:
`s.lower().strip()` (`main.py` lines 110 and 115), i.e. lowercase every
character and strip surrounding whitespace. -/
def normalize (s : String) : String :=
  ⟨stripChars (s.data.map Char.toLower)⟩

/-- The vectorizer (`main.py`, `preprocess_symptoms`, lines 101–120): a binary
vector over the schema columns, entry `i` set to `1` exactly when the
normalized column `i` occurs among the normalized input symptoms.  The trailing
`reshape(1, -1)` only adds a batch axis and is dropped from the embedding. -/
def preprocess_symptoms (symptom_columns : List String) (symptoms : List String) :
    List ℕ :=
  let normalized_symptoms := symptoms.map normalize
  symptom_columns.map fun symptom_col =>
    if normalize symptom_col ∈ normalized_symptoms then 1 else 0

/-- Semantics of `tf.nn.softmax` (`main.py` lines 192 and 238): the softmax
probability distribution `p i = exp (l i) / Σ j, exp (l j)`. -/
noncomputable def softmax (logits : List ℝ) : List ℝ :=
  logits.map fun x => Real.exp x / (logits.map Real.exp).sum

/-- The maximum entry of a logit vector (`np.max` semantics; `0` for the empty
vector, which never occurs with a real model). -/
def maxLogit (logits : List ℝ) : ℝ :=
  match logits with
  | [] => 0
  | x :: xs => xs.foldl max x

/-- The max-subtracted softmax exactly as the specification words it:
`p_i = exp (logit_i - max logit) / Σ_j exp (logit_j - max logit)`. -/
noncomputable def stableSoftmax (logits : List ℝ) : List ℝ :=
  logits.map fun x =>
    Real.exp (x - maxLogit logits) /
      (logits.map fun y => Real.exp (y - maxLogit logits)).sum

/-- `np.argsort(probabilities)[-3:][::-1]` (`main.py` lines 195 and 240): sort
the indices of `probabilities` ascending by value, keep the last three (all of
them when fewer), and reverse, producing the indices of the largest
probabilities in descending order of value. -/
noncomputable def top_3_indices (probabilities : List ℝ) : List ℕ :=
  ((List.insertionSort
        (fun i j => probabilities.getD i 0 ≤ probabilities.getD j 0)
        (List.range probabilities.length)).drop
      (probabilities.length - 3)).reverse

end DocAI

namespace DocAI

/-- Claim C1: the vectorizer returns a vector of the schema's length whose
entry `i` is `1` when the normalized schema entry `i` equals some normalized
input string and `0` otherwise. -/
theorem preprocess_length_and_entries
    (symptom_columns symptoms : List String) :
    (preprocess_symptoms symptom_columns symptoms).length =
        symptom_columns.length ∧
      ∀ i, i < symptom_columns.length →
        (((preprocess_symptoms symptom_columns symptoms).getD i 0 = 1 ↔
            ∃ s ∈ symptoms,
              normalize (symptom_columns.getD i "") = normalize s) ∧
          ((preprocess_symptoms symptom_columns symptoms).getD i 0 = 0 ↔
            ¬ ∃ s ∈ symptoms,
              normalize (symptom_columns.getD i "") = normalize s)) := by
  constructor
  · simp [preprocess_symptoms]
  · intro i hi
    have hi' : i < (preprocess_symptoms symptom_columns symptoms).length := by
      simpa [preprocess_symptoms] using hi
    rw [List.getD_eq_getElem _ _ hi', List.getD_eq_getElem _ _ hi]
    simp only [preprocess_symptoms, List.getElem_map]
    by_cases h : normalize symptom_columns[i] ∈ symptoms.map normalize
    · rw [if_pos h]
      rcases List.mem_map.mp h with ⟨s, hs, hns⟩
      exact ⟨⟨fun _ => ⟨s, hs, hns.symm⟩, fun _ => rfl⟩,
        ⟨fun h0 => by simp at h0, fun hno => absurd ⟨s, hs, hns.symm⟩ hno⟩⟩
    · rw [if_neg h]
      constructor
      · constructor
        · intro h0; simp at h0
        · intro ⟨s, hs, hns⟩
          exact absurd (List.mem_map.mpr ⟨s, hs, hns.symm⟩) h
      · constructor
        · intro _ ⟨s, hs, hns⟩
          exact absurd (List.mem_map.mpr ⟨s, hs, hns.symm⟩) h
        · intro _; rfl

/-- Claim C1 witness. -/
theorem preprocess_length_and_entries_witness :
    (0 : ℕ) < (["fever", "cough"] : List String).length ∧
      ((preprocess_symptoms ["fever", "cough"] ["FEVER"]).getD 0 0 = 1 ↔
        ∃ s ∈ (["FEVER"] : List String),
          normalize ((["fever", "cough"] : List String).getD 0 "") =
            normalize s) :=
  ⟨by decide,
    ((preprocess_length_and_entries ["fever", "cough"] ["FEVER"]).2 0
        (by decide)).1⟩

/-- The vectorizer only depends on input symptoms through their
normalizations. -/
theorem preprocess_congr (symptom_columns : List String)
    {symptoms₁ symptoms₂ : List String}
    (h : symptoms₁.map normalize = symptoms₂.map normalize) :
    preprocess_symptoms symptom_columns symptoms₁ =
      preprocess_symptoms symptom_columns symptoms₂ := by
  simp only [preprocess_symptoms, h]

/-- Claim C6: symptom matching is insensitive to letter case and surrounding
whitespace: `["FEVER"]`, `[" fever "]` and `["fever"]` vectorize identically
against every schema. -/
theorem preprocess_case_whitespace_insensitive (symptom_columns : List String) :
    preprocess_symptoms symptom_columns ["FEVER"] =
        preprocess_symptoms symptom_columns [" fever "] ∧
      preprocess_symptoms symptom_columns [" fever "] =
        preprocess_symptoms symptom_columns ["fever"] :=
  ⟨preprocess_congr symptom_columns (by decide),
    preprocess_congr symptom_columns (by decide)⟩

/-- Claim C7: appending input strings whose normalization matches no schema
entry leaves the feature vector unchanged, and the vectorizer is total (no
error or warning path exists). -/
theorem preprocess_ignores_unrecognized
    (symptom_columns symptoms extra : List String)
    (hextra : ∀ e ∈ extra,
      normalize e ∉ symptom_columns.map normalize) :
    preprocess_symptoms symptom_columns (symptoms ++ extra) =
      preprocess_symptoms symptom_columns symptoms := by
  simp only [preprocess_symptoms, List.map_append]
  apply List.map_congr_left
  intro col hcol
  by_cases h : normalize col ∈ symptoms.map normalize
  · rw [if_pos (List.mem_append_left _ h), if_pos h]
  · have hnot : normalize col ∉ extra.map normalize := by
      intro hmem
      rcases List.mem_map.mp hmem with ⟨e, he, hne⟩
      exact hextra e he (hne ▸ List.mem_map.mpr ⟨col, hcol, rfl⟩)
    rw [if_neg (by
        intro hmem
        rcases List.mem_append.mp hmem with h1 | h2
        · exact h h1
        · exact hnot h2), if_neg h]

/-- Claim C7 witness. -/
theorem preprocess_ignores_unrecognized_witness :
    (∀ e ∈ (["banana"] : List String),
        normalize e ∉ (["fever"] : List String).map normalize) ∧
      preprocess_symptoms ["fever"] (["fever"] ++ ["banana"]) =
        preprocess_symptoms ["fever"] ["fever"] :=
  ⟨by decide,
    preprocess_ignores_unrecognized ["fever"] ["fever"] ["banana"] (by decide)⟩

/-- Dividing each mapped summand by a constant divides the sum. -/
lemma sum_map_div (l : List ℝ) (f : ℝ → ℝ) (c : ℝ) :
    (l.map fun y => f y / c).sum = (l.map f).sum / c := by
  induction l with
  | nil => simp
  | cons a t ih => simp [ih, add_div]

/-- Claim C8: the logits-to-probabilities conversion used by the service
(`tf.nn.softmax`) coincides with the max-subtracted softmax
`p_i = exp (logit_i - max logit) / Σ_j exp (logit_j - max logit)` of the
specification, for every logit vector. -/
theorem softmax_eq_stableSoftmax (logits : List ℝ) :
    softmax logits = stableSoftmax logits := by
  unfold softmax stableSoftmax
  apply List.map_congr_left
  intro x _
  have h1 : (logits.map fun y => Real.exp (y - maxLogit logits)).sum =
      (logits.map Real.exp).sum / Real.exp (maxLogit logits) := by
    rw [← sum_map_div logits Real.exp (Real.exp (maxLogit logits))]
    apply congrArg List.sum
    apply List.map_congr_left
    intro y _
    rw [Real.exp_sub]
  rw [h1, Real.exp_sub,
    div_div_div_cancel_right₀ (Real.exp_ne_zero (maxLogit logits))]

/-- The softmax distribution has one probability per logit. -/
lemma length_softmax (logits : List ℝ) :
    (softmax logits).length = logits.length := by
  simp [softmax]

/-- Every softmax probability lies in `[0, 1]`. -/
lemma softmax_mem_bounds {logits : List ℝ} {x : ℝ} (hx : x ∈ softmax logits) :
    0 ≤ x ∧ x ≤ 1 := by
  rcases List.mem_map.mp hx with ⟨a, ha, rfl⟩
  have hmem : Real.exp a ∈ logits.map Real.exp := List.mem_map.mpr ⟨a, ha, rfl⟩
  have hle : Real.exp a ≤ (logits.map Real.exp).sum :=
    List.single_le_sum (fun y hy => by
      rcases List.mem_map.mp hy with ⟨b, _, rfl⟩
      exact (Real.exp_pos b).le) _ hmem
  have hpos : (0 : ℝ) < (logits.map Real.exp).sum :=
    lt_of_lt_of_le (Real.exp_pos a) hle
  exact ⟨div_nonneg (Real.exp_pos a).le hpos.le, (div_le_one hpos).mpr hle⟩

/-- `top_3_indices` returns `min 3 M` indices. -/
lemma length_top_3_indices (p : List ℝ) :
    (top_3_indices p).length = min 3 p.length := by
  unfold top_3_indices
  rw [List.length_reverse, List.length_drop,
    (List.perm_insertionSort
        (fun i j => p.getD i 0 ≤ p.getD j 0) (List.range p.length)).length_eq,
    List.length_range]
  omega

/-- Every index returned by `top_3_indices` is a valid position. -/
lemma mem_top_3_indices {p : List ℝ} {i : ℕ} (h : i ∈ top_3_indices p) :
    i < p.length := by
  unfold top_3_indices at h
  rw [List.mem_reverse] at h
  exact List.mem_range.mp
    ((List.perm_insertionSort _ _).mem_iff.mp (List.mem_of_mem_drop h))

/-- The probabilities selected by `top_3_indices` appear in non-increasing
order of value. -/
lemma pairwise_top_3_indices (p : List ℝ) :
    (top_3_indices p).Pairwise fun i j => p.getD j 0 ≤ p.getD i 0 := by
  haveI : IsTotal ℕ (fun i j => p.getD i 0 ≤ p.getD j 0) :=
    ⟨fun _ _ => le_total _ _⟩
  haveI : IsTrans ℕ (fun i j => p.getD i 0 ≤ p.getD j 0) :=
    ⟨fun _ _ _ => le_trans⟩
  unfold top_3_indices
  rw [List.pairwise_reverse]
  exact ((List.sorted_insertionSort _ _).sublist
    (List.drop_sublist _ _))

/-- One ranked prediction: a disease label with its confidence
(the dictionaries built at `main.py` lines 200–203 and 244–247). -/
structure Prediction where
  disease : String
  confidence : ℝ

/-- The `/predict` response model (`main.py` lines 96–99). -/
structure PredictionResponse where
  predicted_disease : String
  confidence : ℝ
  top_3_predictions : List Prediction

/-- One element of the `/predict/batch` response (`main.py` lines 249–254). -/
structure BatchItem where
  symptoms : List String
  predicted_disease : String
  confidence : ℝ
  top_3_predictions : List Prediction

/-- The `HTTPException`s raised by the request handlers: model not loaded
(line 179 / 231), empty symptom list (line 182), and an exception escaping the
inference block (line 217 / 259). -/
inductive ApiError
  | modelNotLoaded
  | noSymptoms
  | inferenceFailure
deriving DecidableEq

/-- HTTP status code attached to each `HTTPException` in `main.py`. -/
def statusCode : ApiError → ℕ
  | .modelNotLoaded => 500
  | .noSymptoms => 400
  | .inferenceFailure => 500

/-- The `for idx in top_3_indices` loop (`main.py` lines 198–203 and
242–247): one `Prediction` per index, in order.  Reading
`disease_labels[idx]` raises `IndexError` when `idx` is out of range of the
label list — modelled as `none`, which the handlers surface as the 500
`inferenceFailure`.  `probabilities[idx]` cannot be out of range, because
every index produced by `np.argsort(probabilities)` is a position of
`probabilities`, so that read is a plain (infallible) lookup. -/
noncomputable def build_top_3 (disease_labels : List String)
    (probabilities : List ℝ) : List ℕ → Option (List Prediction)
  | [] => some []
  | idx :: rest =>
    match disease_labels[idx]? with
    | none => none
    | some d =>
      match build_top_3 disease_labels probabilities rest with
      | none => none
      | some ps =>
        some ({ disease := d, confidence := probabilities.getD idx 0 } :: ps)

/-- The `/predict` handler (`main.py`, `predict_disease`, lines 167–217).
The opaque Keras model is the parameter `model`: `none` when loading failed,
otherwise a classifier from feature vectors to logit vectors.  The handler
checks the model, rejects an empty symptom list, vectorizes, runs the
classifier, applies softmax, ranks the top three indices, and builds the
response.  The `try` block can fail two ways, both surfacing as the 500
`inferenceFailure`: `disease_labels[idx]` out of range while building the
top-3 list (or re-reading the top prediction at lines 206–207), and
`top_3_indices[0]` on an empty index list. -/
noncomputable def predict_disease (model : Option (List ℕ → List ℝ))
    (symptom_columns disease_labels : List String)
    (symptoms : List String) : Except ApiError PredictionResponse :=
  match model with
  | none => .error .modelNotLoaded
  | some classifier =>
    if symptoms = [] then .error .noSymptoms
    else
      let input_vector := preprocess_symptoms symptom_columns symptoms
      let logits := classifier input_vector
      let probabilities := softmax logits
      match build_top_3 disease_labels probabilities
          (top_3_indices probabilities) with
      | none => .error .inferenceFailure
      | some top_3_predictions =>
        match top_3_indices probabilities with
        | [] => .error .inferenceFailure
        | top_prediction_idx :: _ =>
          match disease_labels[top_prediction_idx]? with
          | none => .error .inferenceFailure
          | some predicted_disease =>
            .ok { predicted_disease := predicted_disease
                  confidence := probabilities.getD top_prediction_idx 0
                  top_3_predictions := top_3_predictions }

/-- The body of the `for symptoms in symptoms_list` loop of the batch handler
(`main.py` lines 235–254): the same vectorize–predict–softmax–rank pipeline,
with no emptiness check, packaging the input symptoms into the result.  As in
`predict_disease`, an out-of-range `disease_labels[idx]` (lines 244 and 251)
or `top_3_indices[0]` on an empty index list raises, surfacing as the 500
`inferenceFailure`. -/
noncomputable def batch_item (classifier : List ℕ → List ℝ)
    (symptom_columns disease_labels : List String)
    (symptoms : List String) : Except ApiError BatchItem :=
  let input_vector := preprocess_symptoms symptom_columns symptoms
  let logits := classifier input_vector
  let probabilities := softmax logits
  match build_top_3 disease_labels probabilities
      (top_3_indices probabilities) with
  | none => .error .inferenceFailure
  | some top_3_predictions =>
    match top_3_indices probabilities with
    | [] => .error .inferenceFailure
    | top_prediction_idx :: _ =>
      match disease_labels[top_prediction_idx]? with
      | none => .error .inferenceFailure
      | some predicted_disease =>
        .ok { symptoms := symptoms
              predicted_disease := predicted_disease
              confidence := probabilities.getD top_prediction_idx 0
              top_3_predictions := top_3_predictions }

/-- The sequential batch loop: items processed strictly in input order, the
first failing item aborting the whole batch (the `try` block wraps the entire
loop at lines 233–259). -/
noncomputable def batch_loop (classifier : List ℕ → List ℝ)
    (symptom_columns disease_labels : List String) :
    List (List String) → Except ApiError (List BatchItem)
  | [] => .ok []
  | symptoms :: rest =>
    match batch_item classifier symptom_columns disease_labels symptoms with
    | .error e => .error e
    | .ok item =>
      match batch_loop classifier symptom_columns disease_labels rest with
      | .error e => .error e
      | .ok items => .ok (item :: items)

/-- The `/predict/batch` handler (`main.py`, `predict_disease_batch`,
lines 219–259). -/
noncomputable def predict_disease_batch (model : Option (List ℕ → List ℝ))
    (symptom_columns disease_labels : List String)
    (symptoms_list : List (List String)) :
    Except ApiError (List BatchItem) :=
  match model with
  | none => .error .modelNotLoaded
  | some classifier =>
    batch_loop classifier symptom_columns disease_labels symptoms_list

/-- The metadata artifact: a JSON object that may or may not carry the
`symptom_columns` and `disease_labels` fields (`main.py` lines 48–55). -/
structure Metadata where
  symptom_columns : Option (List String)
  disease_labels : Option (List String)

/-- Startup failures of the `lifespan` handler: a missing file
(`FileNotFoundError`, lines 36–37 and 44–45), a model that fails to load
(line 40), or metadata that fails to parse or lacks a required key
(lines 48–55, caught by the generic handler at line 63). -/
inductive StartupError
  | fileNotFound (path : String)
  | loadFailure
  | badMetadata

/-- The process-wide state established by a successful startup: the model
handle and the two metadata lists (`main.py` lines 23–26). -/
structure AppState where
  model : List ℕ → List ℝ
  symptom_columns : List String
  disease_labels : List String

/-- The startup half of the `lifespan` handler (`main.py` lines 28–67),
parametrized over an abstract file system: `fileExists` models
`os.path.exists`, `load_model` models `tf.keras.models.load_model` (`none`
when it raises), and `read_metadata` models opening, JSON-parsing and
field-checking the metadata file.  Each failure re-raises, so startup returns
an error instead of a state. -/
def lifespan_startup (fileExists : String → Bool)
    (load_model : String → Option (List ℕ → List ℝ))
    (read_metadata : String → Option Metadata)
    (MODEL_PATH METADATA_PATH : String) : Except StartupError AppState :=
  if fileExists MODEL_PATH = false then .error (.fileNotFound MODEL_PATH)
  else
    match load_model MODEL_PATH with
    | none => .error .loadFailure
    | some model =>
      if fileExists METADATA_PATH = false then
        .error (.fileNotFound METADATA_PATH)
      else
        match read_metadata METADATA_PATH with
        | none => .error .badMetadata
        | some metadata =>
          match metadata.symptom_columns, metadata.disease_labels with
          | some symptom_columns, some disease_labels =>
            .ok { model := model
                  symptom_columns := symptom_columns
                  disease_labels := disease_labels }
          | _, _ => .error .badMetadata

/-- Modelled from the spec: the web framework (FastAPI running the `lifespan`
context) begins serving requests only when the startup block completes
without raising; a startup error prevents the process from ever serving.
The framework itself is not part of the repository's sources. -/
def beginsServing : Except StartupError AppState → Bool
  | .ok _ => true
  | .error _ => false

/-- Unfolding of the `/predict` handler once the model is loaded. -/
lemma predict_disease_some (classifier : List ℕ → List ℝ)
    (symptom_columns disease_labels symptoms : List String) :
    predict_disease (some classifier) symptom_columns disease_labels symptoms =
      if symptoms = [] then .error .noSymptoms
      else
        match build_top_3 disease_labels
            (softmax (classifier
              (preprocess_symptoms symptom_columns symptoms)))
            (top_3_indices
              (softmax (classifier
                (preprocess_symptoms symptom_columns symptoms)))) with
        | none => .error .inferenceFailure
        | some top_3_predictions =>
          match top_3_indices
              (softmax (classifier
                (preprocess_symptoms symptom_columns symptoms))) with
          | [] => .error .inferenceFailure
          | top_prediction_idx :: _ =>
            match disease_labels[top_prediction_idx]? with
            | none => .error .inferenceFailure
            | some predicted_disease =>
              .ok { predicted_disease := predicted_disease
                    confidence :=
                      (softmax (classifier
                        (preprocess_symptoms symptom_columns
                          symptoms))).getD top_prediction_idx 0
                    top_3_predictions := top_3_predictions } := rfl

/-- When every index is in range of the label list, the top-3 build loop
succeeds and is the mapped list of label/probability pairs. -/
lemma build_top_3_eq_map (disease_labels : List String)
    (probabilities : List ℝ) (idxs : List ℕ)
    (h : ∀ idx ∈ idxs, idx < disease_labels.length) :
    build_top_3 disease_labels probabilities idxs =
      some (idxs.map fun idx =>
        { disease := disease_labels.getD idx ""
          confidence := probabilities.getD idx 0 }) := by
  induction idxs with
  | nil => rfl
  | cons idx rest ih =>
    have hidx : idx < disease_labels.length :=
      h idx (List.mem_cons_self idx rest)
    have hget : disease_labels[idx]? = some (disease_labels.getD idx "") := by
      rw [List.getElem?_eq_getElem hidx, List.getD_eq_getElem _ _ hidx]
    simp only [build_top_3, hget,
      ih (fun t ht => h t (List.mem_cons_of_mem idx ht)), List.map_cons]

/-- Inversion of a successful `/predict` run: the symptom list was non-empty,
the top-3 index list is non-empty, its head produced the top-level fields
through the fallible label lookup, and the top-3 predictions are the built
list, headed by the top prediction. -/
lemma predict_ok_inversion (classifier : List ℕ → List ℝ)
    (symptom_columns disease_labels symptoms : List String)
    (r : PredictionResponse)
    (hr : predict_disease (some classifier) symptom_columns disease_labels
      symptoms = .ok r) :
    symptoms ≠ [] ∧
      ∃ idx0 rest ps,
        top_3_indices (softmax (classifier
            (preprocess_symptoms symptom_columns symptoms))) = idx0 :: rest ∧
          disease_labels[idx0]? = some r.predicted_disease ∧
          r.confidence = (softmax (classifier
            (preprocess_symptoms symptom_columns symptoms))).getD idx0 0 ∧
          build_top_3 disease_labels
              (softmax (classifier
                (preprocess_symptoms symptom_columns symptoms)))
              (idx0 :: rest) = some r.top_3_predictions ∧
          r.top_3_predictions =
            { disease := r.predicted_disease,
              confidence := r.confidence } :: ps := by
  rw [predict_disease_some] at hr
  by_cases hs : symptoms = []
  · rw [if_pos hs] at hr
    simp at hr
  · refine ⟨hs, ?_⟩
    rw [if_neg hs] at hr
    set p := softmax (classifier
      (preprocess_symptoms symptom_columns symptoms)) with hp
    cases hbuild : build_top_3 disease_labels p (top_3_indices p) with
    | none => rw [hbuild] at hr; simp at hr
    | some tps =>
      rw [hbuild] at hr
      dsimp only at hr
      cases htop : top_3_indices p with
      | nil => rw [htop] at hr; simp at hr
      | cons idx0 rest =>
        rw [htop] at hr
        dsimp only at hr
        cases hget : disease_labels[idx0]? with
        | none => rw [hget] at hr; simp at hr
        | some d =>
          rw [hget] at hr
          dsimp only at hr
          have hr' := (Except.ok.injEq _ _).mp hr
          subst hr'
          rw [htop] at hbuild
          have hbuild' := hbuild
          simp only [build_top_3, hget] at hbuild'
          cases hrest : build_top_3 disease_labels p rest with
          | none => rw [hrest] at hbuild'; simp at hbuild'
          | some ps =>
            rw [hrest] at hbuild'
            dsimp only at hbuild'
            refine ⟨idx0, rest, ps, rfl, hget, rfl, hbuild, ?_⟩
            simpa using hbuild'.symm

/-- The `/predict` handler rejects the empty symptom list outright. -/
lemma predict_disease_nil (classifier : List ℕ → List ℝ)
    (symptom_columns disease_labels : List String) :
    predict_disease (some classifier) symptom_columns disease_labels [] =
      .error .noSymptoms := by
  rw [predict_disease_some, if_pos rfl]

/-- A fixed single-class stub classifier used to witness concrete runs. -/
noncomputable def demoClassifier : List ℕ → List ℝ := fun _ => [0]

/-- Softmax of the demo classifier's single zero logit. -/
lemma demo_softmax :
    softmax (demoClassifier (preprocess_symptoms ["fever"] ["fever"])) =
      [1] := by
  simp [demoClassifier, softmax]

/-- Ranking a one-entry probability vector. -/
lemma top3_single : top_3_indices [(1 : ℝ)] = [0] := by
  simp [top_3_indices, List.insertionSort, List.orderedInsert]

/-- A fully evaluated successful `/predict` run on the demo instance. -/
lemma predict_concrete :
    predict_disease (some demoClassifier) ["fever"] ["flu"] ["fever"] =
      .ok { predicted_disease := "flu", confidence := 1,
            top_3_predictions := [{ disease := "flu", confidence := 1 }] } := by
  rw [predict_disease_some, if_neg (by simp), demo_softmax, top3_single]
  simp [build_top_3]

/-- Claim C4: with the model loaded, an empty symptom list is rejected with
the 400 `noSymptoms` error; the result is this constant error for every
classifier and every schema, so neither the vectorizer nor the classifier can
influence (nor be needed for) the response. -/
theorem predict_empty_rejected (classifier₁ classifier₂ : List ℕ → List ℝ)
    (symptom_columns₁ symptom_columns₂ disease_labels : List String) :
    predict_disease (some classifier₁) symptom_columns₁ disease_labels [] =
        .error .noSymptoms ∧
      predict_disease (some classifier₁) symptom_columns₁ disease_labels [] =
        predict_disease (some classifier₂) symptom_columns₂ disease_labels [] ∧
      statusCode .noSymptoms = 400 :=
  ⟨predict_disease_nil _ _ _,
    (predict_disease_nil _ _ _).trans (predict_disease_nil _ _ _).symm, rfl⟩

/-- Claim C3: every successful `/predict` response has a non-empty top-3 list
whose head carries exactly the top-level `predicted_disease` and
`confidence`. -/
theorem predicted_disease_is_top3_head (model : Option (List ℕ → List ℝ))
    (symptom_columns disease_labels symptoms : List String)
    (resp : PredictionResponse)
    (h : predict_disease model symptom_columns disease_labels symptoms =
      .ok resp) :
    resp.top_3_predictions ≠ [] ∧
      (resp.top_3_predictions.headD ⟨"", 0⟩).disease =
        resp.predicted_disease ∧
      (resp.top_3_predictions.headD ⟨"", 0⟩).confidence = resp.confidence := by
  cases model with
  | none => simp [predict_disease] at h
  | some classifier =>
    obtain ⟨-, idx0, rest, ps, -, -, -, -, htps⟩ :=
      predict_ok_inversion classifier symptom_columns disease_labels
        symptoms resp h
    rw [htps]
    simp

/-- Claim C2 (amended): for a non-empty, fully recognized symptom list and a
classifier producing one logit per disease label, `/predict` succeeds and the
top-3 list has length `min 3 M`, confidences in non-increasing order, and
each confidence in `[0, 1]`. -/
theorem top3_length_order_bounds (classifier : List ℕ → List ℝ)
    (symptom_columns disease_labels symptoms : List String)
    (hne : symptoms ≠ [])
    (_hrec : ∀ s ∈ symptoms, normalize s ∈ symptom_columns.map normalize)
    (hlen : (classifier (preprocess_symptoms symptom_columns symptoms)).length =
      disease_labels.length)
    (hM : 0 < disease_labels.length) :
    ∃ resp,
      predict_disease (some classifier) symptom_columns disease_labels
          symptoms = .ok resp ∧
        resp.top_3_predictions.length = min 3 disease_labels.length ∧
        resp.top_3_predictions.Pairwise
          (fun p q => q.confidence ≤ p.confidence) ∧
        ∀ p ∈ resp.top_3_predictions,
          0 ≤ p.confidence ∧ p.confidence ≤ 1 := by
  set p := softmax (classifier (preprocess_symptoms symptom_columns symptoms))
    with hp
  have hplen : p.length = disease_labels.length := by
    rw [hp, length_softmax, hlen]
  have htoplen : (top_3_indices p).length = min 3 disease_labels.length := by
    rw [length_top_3_indices, hplen]
  have hbound : ∀ idx ∈ top_3_indices p, idx < disease_labels.length :=
    fun idx hidx => hplen ▸ mem_top_3_indices hidx
  have hbuild := build_top_3_eq_map disease_labels p (top_3_indices p) hbound
  rw [predict_disease_some, if_neg hne, ← hp]
  cases htop : top_3_indices p with
  | nil =>
    rw [htop] at htoplen
    simp at htoplen
    omega
  | cons idx0 rest =>
    have hidx0 : idx0 < disease_labels.length :=
      hbound idx0 (htop ▸ List.mem_cons_self idx0 rest)
    have hget : disease_labels[idx0]? = some (disease_labels.getD idx0 "") := by
      rw [List.getElem?_eq_getElem hidx0, List.getD_eq_getElem _ _ hidx0]
    rw [htop] at hbuild
    rw [hbuild]
    dsimp only
    rw [hget]
    dsimp only
    refine ⟨_, rfl, ?_, ?_, ?_⟩
    · rw [List.length_map, ← htop, htoplen]
    · rw [List.pairwise_map, ← htop]
      exact pairwise_top_3_indices p
    · intro q hq
      rcases List.mem_map.mp hq with ⟨idx, hidx, rfl⟩
      have hlt : idx < p.length := mem_top_3_indices (htop ▸ hidx)
      have hmem : p.getD idx 0 ∈ p := by
        rw [List.getD_eq_getElem _ _ hlt]
        exact p.getElem_mem hlt
      exact softmax_mem_bounds hmem

/-- Claim C2 (amended) witness. -/
theorem top3_length_order_bounds_witness :
    ((["fever"] : List String) ≠ [] ∧
        (∀ s ∈ (["fever"] : List String),
          normalize s ∈ (["fever"] : List String).map normalize) ∧
        (demoClassifier (preprocess_symptoms ["fever"] ["fever"])).length =
          (["flu"] : List String).length ∧
        0 < (["flu"] : List String).length) ∧
      ∃ resp,
        predict_disease (some demoClassifier) ["fever"] ["flu"] ["fever"] =
            .ok resp ∧
          resp.top_3_predictions.length =
            min 3 (["flu"] : List String).length ∧
          resp.top_3_predictions.Pairwise
            (fun p q => q.confidence ≤ p.confidence) ∧
          ∀ p ∈ resp.top_3_predictions,
            0 ≤ p.confidence ∧ p.confidence ≤ 1 :=
  ⟨⟨by simp, by decide, rfl, by decide⟩,
    top3_length_order_bounds demoClassifier ["fever"] ["flu"] ["fever"]
      (by simp) (by decide) rfl (by decide)⟩

/-- A stub classifier producing two tied logits. -/
noncomputable def tieClassifier : List ℕ → List ℝ := fun _ => [0, 0]

/-- Softmax of two tied zero logits is the uniform distribution. -/
lemma tie_softmax :
    softmax (tieClassifier (preprocess_symptoms ["fever"] ["fever"])) =
      [1 / 2, 1 / 2] := by
  simp [tieClassifier, softmax]
  norm_num

/-- Ranking the uniform two-entry probability vector keeps both tied entries,
reversed after the stable ascending sort. -/
lemma top3_tie : top_3_indices [(1 : ℝ) / 2, 1 / 2] = [1, 0] := by
  simp [top_3_indices, List.insertionSort, List.orderedInsert]

/-- Claim C2 counterexample: on a classifier with two tied logits (which no
part of the code rules out), a non-empty, fully recognized symptom list
yields a successful response whose two confidences are equal, so the top-3
confidences are not strictly descending. -/
theorem top3_not_strictly_descending :
    (["fever"] : List String) ≠ [] ∧
      (∀ s ∈ (["fever"] : List String),
        normalize s ∈ (["fever"] : List String).map normalize) ∧
      (tieClassifier (preprocess_symptoms ["fever"] ["fever"])).length =
        (["a", "b"] : List String).length ∧
      ∃ resp,
        predict_disease (some tieClassifier) ["fever"] ["a", "b"] ["fever"] =
            .ok resp ∧
          ¬ resp.top_3_predictions.Pairwise
            (fun p q => q.confidence < p.confidence) := by
  refine ⟨by simp, by decide, rfl,
    ⟨{ predicted_disease := "b", confidence := 1 / 2,
        top_3_predictions :=
          [{ disease := "b", confidence := 1 / 2 },
            { disease := "a", confidence := 1 / 2 }] }, ?_, ?_⟩⟩
  · rw [predict_disease_some, if_neg (by simp), tie_softmax, top3_tie]
    norm_num [build_top_3]
  · intro hpw
    have := List.rel_of_pairwise_cons hpw (List.mem_singleton.mpr rfl)
    simp at this

/-- Claim C3 witness. -/
theorem predicted_disease_is_top3_head_witness :
    predict_disease (some demoClassifier) ["fever"] ["flu"] ["fever"] =
        .ok { predicted_disease := "flu", confidence := 1,
              top_3_predictions := [{ disease := "flu", confidence := 1 }] } ∧
      ({ predicted_disease := "flu", confidence := 1,
          top_3_predictions :=
            [{ disease := "flu",
                confidence := 1 }] } : PredictionResponse).top_3_predictions
          ≠ [] :=
  ⟨predict_concrete,
    (predicted_disease_is_top3_head _ _ _ _ _ predict_concrete).1⟩

/-- The batch handler with a loaded model runs the sequential loop. -/
lemma predict_disease_batch_some (classifier : List ℕ → List ℝ)
    (symptom_columns disease_labels : List String)
    (symptoms_list : List (List String)) :
    predict_disease_batch (some classifier) symptom_columns disease_labels
        symptoms_list =
      batch_loop classifier symptom_columns disease_labels symptoms_list := rfl

/-- A successful single `/predict` run determines the batch-loop item for the
same symptom list: identical fields, plus the echoed input symptoms. -/
lemma batch_item_of_predict_ok (classifier : List ℕ → List ℝ)
    (symptom_columns disease_labels symptoms : List String)
    (r : PredictionResponse)
    (hr : predict_disease (some classifier) symptom_columns disease_labels
      symptoms = .ok r) :
    batch_item classifier symptom_columns disease_labels symptoms =
      .ok { symptoms := symptoms
            predicted_disease := r.predicted_disease
            confidence := r.confidence
            top_3_predictions := r.top_3_predictions } := by
  obtain ⟨-, idx0, rest, ps, htop, hget, hconf, hbuild, -⟩ :=
    predict_ok_inversion classifier symptom_columns disease_labels
      symptoms r hr
  simp only [batch_item]
  rw [htop, hbuild]
  dsimp only
  rw [hget]
  dsimp only
  rw [hconf]

/-- Sequential batch loop invariant: when every item's single prediction
succeeds, the loop succeeds with one item per input, in input order, the
`i`-th item carrying the `i`-th single-prediction fields. -/
lemma batch_loop_spec (classifier : List ℕ → List ℝ)
    (symptom_columns disease_labels : List String)
    (symptoms_list : List (List String))
    (hok : ∀ s ∈ symptoms_list, ∃ r,
      predict_disease (some classifier) symptom_columns disease_labels s =
        .ok r) :
    ∃ items,
      batch_loop classifier symptom_columns disease_labels symptoms_list =
          .ok items ∧
        items.length = symptoms_list.length ∧
        ∀ i, i < symptoms_list.length →
          ∃ r, predict_disease (some classifier) symptom_columns disease_labels
                (symptoms_list.getD i []) = .ok r ∧
            (items.getD i ⟨[], "", 0, []⟩).symptoms =
              symptoms_list.getD i [] ∧
            (items.getD i ⟨[], "", 0, []⟩).predicted_disease =
              r.predicted_disease ∧
            (items.getD i ⟨[], "", 0, []⟩).confidence = r.confidence ∧
            (items.getD i ⟨[], "", 0, []⟩).top_3_predictions =
              r.top_3_predictions := by
  induction symptoms_list with
  | nil =>
    exact ⟨[], rfl, rfl, fun i hi => absurd hi (by simp)⟩
  | cons s rest ih =>
    rcases hok s (List.mem_cons_self s rest) with ⟨r, hr⟩
    rcases ih (fun t ht => hok t (List.mem_cons_of_mem s ht)) with
      ⟨items, hloop, hlen, hpt⟩
    refine ⟨{ symptoms := s, predicted_disease := r.predicted_disease,
              confidence := r.confidence,
              top_3_predictions := r.top_3_predictions } :: items, ?_, ?_, ?_⟩
    · unfold batch_loop
      rw [batch_item_of_predict_ok classifier symptom_columns disease_labels
        s r hr, hloop]
    · simp [hlen]
    · intro i hi
      cases i with
      | zero => exact ⟨r, hr, rfl, rfl, rfl, rfl⟩
      | succ j =>
        have hj : j < rest.length := by
          simpa using Nat.lt_of_succ_lt_succ hi
        simpa using hpt j hj

/-- Claim C5: when every item's single `/predict` computation succeeds, the
batch endpoint returns exactly one result per input, in input order, whose
`predicted_disease`, `confidence` and `top_3_predictions` equal those of the
single `/predict` computation on that same symptom list. -/
theorem batch_matches_single (classifier : List ℕ → List ℝ)
    (symptom_columns disease_labels : List String)
    (symptoms_list : List (List String))
    (hok : ∀ s ∈ symptoms_list, ∃ r,
      predict_disease (some classifier) symptom_columns disease_labels s =
        .ok r) :
    ∃ items,
      predict_disease_batch (some classifier) symptom_columns disease_labels
          symptoms_list = .ok items ∧
        items.length = symptoms_list.length ∧
        ∀ i, i < symptoms_list.length →
          ∃ r, predict_disease (some classifier) symptom_columns disease_labels
                (symptoms_list.getD i []) = .ok r ∧
            (items.getD i ⟨[], "", 0, []⟩).symptoms =
              symptoms_list.getD i [] ∧
            (items.getD i ⟨[], "", 0, []⟩).predicted_disease =
              r.predicted_disease ∧
            (items.getD i ⟨[], "", 0, []⟩).confidence = r.confidence ∧
            (items.getD i ⟨[], "", 0, []⟩).top_3_predictions =
              r.top_3_predictions := by
  rw [predict_disease_batch_some]
  exact batch_loop_spec classifier symptom_columns disease_labels
    symptoms_list hok

/-- Claim C5 witness. -/
theorem batch_matches_single_witness :
    (∀ s ∈ ([["fever"]] : List (List String)), ∃ r,
        predict_disease (some demoClassifier) ["fever"] ["flu"] s = .ok r) ∧
      ∃ items,
        predict_disease_batch (some demoClassifier) ["fever"] ["flu"]
            [["fever"]] = .ok items ∧
          items.length = ([["fever"]] : List (List String)).length := by
  have hok : ∀ s ∈ ([["fever"]] : List (List String)), ∃ r,
      predict_disease (some demoClassifier) ["fever"] ["flu"] s = .ok r := by
    intro s hs
    rw [List.mem_singleton] at hs
    subst hs
    exact ⟨_, predict_concrete⟩
  rcases batch_matches_single demoClassifier ["fever"] ["flu"] [["fever"]]
      hok with ⟨items, hbatch, hlen, _⟩
  exact ⟨hok, items, hbatch, hlen⟩

/-- A classifier emitting one logit per disease label, with at least one
label, makes every batch item succeed, echoing its input symptoms. -/
lemma batch_item_ok (classifier : List ℕ → List ℝ)
    (symptom_columns disease_labels symptoms : List String)
    (hlen : (classifier (preprocess_symptoms symptom_columns symptoms)).length =
      disease_labels.length)
    (hM : 0 < disease_labels.length) :
    ∃ b, batch_item classifier symptom_columns disease_labels symptoms =
        .ok b ∧
      b.symptoms = symptoms := by
  simp only [batch_item]
  set p := softmax (classifier
    (preprocess_symptoms symptom_columns symptoms)) with hp
  have hplen : p.length = disease_labels.length := by
    rw [hp, length_softmax, hlen]
  have htoplen : (top_3_indices p).length = min 3 disease_labels.length := by
    rw [length_top_3_indices, hplen]
  have hbound : ∀ idx ∈ top_3_indices p, idx < disease_labels.length :=
    fun idx hidx => hplen ▸ mem_top_3_indices hidx
  have hbuild := build_top_3_eq_map disease_labels p (top_3_indices p) hbound
  cases htop : top_3_indices p with
  | nil =>
    rw [htop] at htoplen
    simp at htoplen
    omega
  | cons idx0 rest =>
    have hidx0 : idx0 < disease_labels.length :=
      hbound idx0 (htop ▸ List.mem_cons_self idx0 rest)
    have hget : disease_labels[idx0]? = some (disease_labels.getD idx0 "") := by
      rw [List.getElem?_eq_getElem hidx0, List.getD_eq_getElem _ _ hidx0]
    rw [htop] at hbuild
    rw [hbuild]
    dsimp only
    rw [hget]
    dsimp only
    exact ⟨_, rfl, rfl⟩

/-- When every batch item succeeds, the loop succeeds with one item per
input, in input order. -/
lemma batch_loop_ok (classifier : List ℕ → List ℝ)
    (symptom_columns disease_labels : List String)
    (symptoms_list : List (List String))
    (h : ∀ s ∈ symptoms_list, ∃ b,
      batch_item classifier symptom_columns disease_labels s = .ok b ∧
        b.symptoms = s) :
    ∃ items,
      batch_loop classifier symptom_columns disease_labels symptoms_list =
          .ok items ∧
        items.length = symptoms_list.length ∧
        ∀ i, i < symptoms_list.length →
          (items.getD i ⟨[], "", 0, []⟩).symptoms =
            symptoms_list.getD i [] := by
  induction symptoms_list with
  | nil => exact ⟨[], rfl, rfl, fun i hi => absurd hi (by simp)⟩
  | cons s rest ih =>
    rcases h s (List.mem_cons_self s rest) with ⟨b, hb, hbs⟩
    rcases ih (fun t ht => h t (List.mem_cons_of_mem s ht)) with
      ⟨items, hloop, hlen, hpt⟩
    refine ⟨b :: items, ?_, by simp [hlen], ?_⟩
    · unfold batch_loop
      rw [hb, hloop]
    · intro i hi
      cases i with
      | zero => simpa using hbs
      | succ j =>
        have hj : j < rest.length := by
          simpa using Nat.lt_of_succ_lt_succ hi
        simpa using hpt j hj

/-- Claim C10: the batch endpoint has no per-item non-emptiness check: for a
classifier emitting one logit per disease label with at least one label (the
shape the deployed model artifact satisfies, keeping `disease_labels[idx]`
in range), a batch containing the empty symptom list succeeds end to end
(one result per input, in order), the empty item being vectorized to the
all-zero vector and run through inference — while the single `/predict`
endpoint rejects the same empty list with the 400 `noSymptoms` error. -/
theorem batch_accepts_empty_item (classifier : List ℕ → List ℝ)
    (symptom_columns disease_labels : List String)
    (symptoms_list : List (List String))
    (_hmem : [] ∈ symptoms_list)
    (hshape : ∀ symptoms,
      (classifier (preprocess_symptoms symptom_columns symptoms)).length =
        disease_labels.length)
    (hM : 0 < disease_labels.length) :
    (∃ items,
        predict_disease_batch (some classifier) symptom_columns disease_labels
            symptoms_list = .ok items ∧
          items.length = symptoms_list.length ∧
          ∀ i, i < symptoms_list.length →
            (items.getD i ⟨[], "", 0, []⟩).symptoms =
              symptoms_list.getD i []) ∧
      preprocess_symptoms symptom_columns [] =
        List.replicate symptom_columns.length 0 ∧
      predict_disease (some classifier) symptom_columns disease_labels [] =
        .error .noSymptoms ∧
      statusCode .noSymptoms = 400 := by
  refine ⟨?_, ?_, predict_disease_nil _ _ _, rfl⟩
  · rw [predict_disease_batch_some]
    exact batch_loop_ok classifier symptom_columns disease_labels
      symptoms_list (fun s _ =>
        batch_item_ok classifier symptom_columns disease_labels s
          (hshape s) hM)
  · simp [preprocess_symptoms]

/-- Claim C10 witness. -/
theorem batch_accepts_empty_item_witness :
    (([] : List String) ∈ ([[]] : List (List String)) ∧
        (∀ symptoms,
          (demoClassifier (preprocess_symptoms ["fever"] symptoms)).length =
            (["flu"] : List String).length) ∧
        0 < (["flu"] : List String).length) ∧
      predict_disease (some demoClassifier) ["fever"] ["flu"] [] =
        .error .noSymptoms :=
  ⟨⟨by simp, fun _ => rfl, by decide⟩,
    (batch_accepts_empty_item demoClassifier ["fever"] ["flu"] [[]]
        (by simp) (fun _ => rfl) (by decide)).2.2.1⟩

/-- Claim C9: if either the model file or the metadata file does not exist at
its configured path, startup returns an error (the re-raised exception of the
`lifespan` handler) and the process never begins serving. -/
theorem startup_aborts_on_missing_artifact
    (fileExists : String → Bool)
    (load_model : String → Option (List ℕ → List ℝ))
    (read_metadata : String → Option Metadata)
    (MODEL_PATH METADATA_PATH : String)
    (h : fileExists MODEL_PATH = false ∨ fileExists METADATA_PATH = false) :
    (∃ e, lifespan_startup fileExists load_model read_metadata MODEL_PATH
        METADATA_PATH = .error e) ∧
      beginsServing (lifespan_startup fileExists load_model read_metadata
        MODEL_PATH METADATA_PATH) = false := by
  have hmain : ∃ e, lifespan_startup fileExists load_model read_metadata
      MODEL_PATH METADATA_PATH = .error e := by
    unfold lifespan_startup
    cases hm : fileExists MODEL_PATH with
    | false => exact ⟨.fileNotFound MODEL_PATH, by rw [if_pos rfl]⟩
    | true =>
      rcases h with h1 | h2
      · rw [hm] at h1
        cases h1
      · rw [if_neg (by simp)]
        cases hl : load_model MODEL_PATH with
        | none => exact ⟨.loadFailure, rfl⟩
        | some m =>
          dsimp only
          rw [if_pos h2]
          exact ⟨.fileNotFound METADATA_PATH, rfl⟩
  rcases hmain with ⟨e, he⟩
  rw [he]
  exact ⟨⟨e, rfl⟩, rfl⟩

/-- Claim C9 witness. -/
theorem startup_aborts_on_missing_artifact_witness :
    ((fun _ : String => false) "model10.keras" = false ∨
        (fun _ : String => false) "model_metadata.json" = false) ∧
      beginsServing (lifespan_startup (fun _ => false) (fun _ => none)
        (fun _ => none) "model10.keras" "model_metadata.json") = false :=
  ⟨Or.inl rfl,
    (startup_aborts_on_missing_artifact (fun _ => false) (fun _ => none)
        (fun _ => none) "model10.keras" "model_metadata.json"
        (Or.inl rfl)).2⟩

end DocAI
